import Mathlib

/-!
Shallow embedding of `src/cli/src/katello/client/core/distribution.py`: the
`List` and `Info` CLI actions for inspecting distributions in a repository.
Each action is embedded as a function from its parsed options and its external
collaborators (the repo-resolution helper `get_repo` and the `DistributionAPI`
client) to an ordered trace of observable effects (printer configuration,
network calls, records handed to the printer) together with either the
returned exit status or a propagated exception.  The option-validation
primitives and the parse/validate/run pipeline live in the framework outside
this excerpt (`katello.client.core.base`), so they are modelled from the spec
where noted.
-/

/-- `os.EX_OK`, the success exit status returned by both `run` methods. -/
def EX_OK : Nat := 0

/-- An error raised by an external collaborator (`get_repo` resolution
failure, or a `DistributionAPI` transport/server failure). -/
inductive ApiErr where
  | notFound
  | transport (msg : String)
deriving DecidableEq, Repr

/-- The record returned by the repo-resolution collaborator `get_repo`; the
subscript `repo["id"]` at line 68 is modelled by the `id` field. -/
structure RepoRecord where
  id : String
deriving DecidableEq, Repr

/-- A distribution record returned by the API: a mapping from field name to
value, which the actions pass to the printer unchanged. -/
abbrev DistRecord := List (String × String)

/-- One observable effect of an action invocation: printer configuration
(`add_column` with its multiline and verbose-only flags, `set_header`),
a network call to one of the external collaborators, or handing record(s)
to the printer (`print_items` / `print_item`). -/
inductive Event where
  | addColumn (key : String) (multiline verboseOnly : Bool)
  | setHeader (text : String)
  | getRepoCall (org prod repo env : Option String)
  | distributionsByRepoCall (repoId : String)
  | distributionCall (repoId distId : Option String)
  | printItems
  | printItem
deriving DecidableEq, Repr

/-- Whether an event is a network call to an external collaborator. -/
def Event.isNetwork : Event → Bool
  | .getRepoCall _ _ _ _ => true
  | .distributionsByRepoCall _ => true
  | .distributionCall _ _ => true
  | _ => false

/-- Whether an event is a printer-column configuration. -/
def Event.isColumn : Event → Bool
  | .addColumn _ _ _ => true
  | _ => false

/-- Whether an event sets the printer header. -/
def Event.isHeader : Event → Bool
  | .setHeader _ => true
  | _ => false

/-- The outcome of one `run`: the ordered trace of effects it performed, and
either the exit status it returned or the exception it let propagate. -/
structure RunResult (α : Type) where
  trace : List Event
  result : Except ApiErr α
deriving Repr

/-- The external collaborators `List.run` uses: `get_repo(org, product, repo,
env)` from `katello.client.api.utils`, and
`DistributionAPI.distributions_by_repo(repo_id)`.  Either may raise. -/
structure ListCollab where
  get_repo : Option String → Option String → Option String → Option String →
    Except ApiErr RepoRecord
  distributions_by_repo : String → Except ApiErr (List DistRecord)

/-- The external collaborator `Info.run` uses:
`DistributionAPI.distribution(repo_id, distribution_id)`. -/
structure InfoCollab where
  distribution : Option String → Option String → Except ApiErr DistRecord

/-- The parsed options of the `List` action (flags `--repo_id`, `--repo`,
`--org`, `--environment`, `--product`); `none` when the flag was absent and
no default applies. -/
structure ListOpts where
  repo_id : Option String
  repo : Option String
  org : Option String
  environment : Option String
  product : Option String
deriving DecidableEq, Repr

/-- The parsed options of the `Info` action (flags `--repo_id`, `--id`). -/
structure InfoOpts where
  repo_id : Option String
  id : Option String
deriving DecidableEq, Repr

/-- Default application by the option parser: the `List` action declares a
default of `"Library"` for `environment` (line 48) and no default for any
other flag, so after parsing, `environment` holds the given value or
`"Library"`. -/
def parseListOptions (o : ListOpts) : ListOpts :=
  { repo_id := o.repo_id, repo := o.repo, org := o.org,
    environment := some (o.environment.getD "Library"), product := o.product }

/-- Python truthiness of an option value, as tested by `if not repoId:` at
line 66: `None` and the empty string are falsy, everything else truthy. -/
def falsyOpt : Option String → Bool
  | none => true
  | some s => s == ""

/-- Modelled from the spec: the presence test used by `validator.require`
(the `OptionValidator` class is outside this excerpt) — require "fails with
ValidationError unless every key in the tuple has a present (non-empty)
value". -/
def presentNonEmpty : Option String → Bool
  | none => false
  | some s => !(s == "")

/-- Modelled from the spec: `validator.require(tuple_of_keys)` passes iff
every listed option has a present (non-empty) value. -/
def validatorRequire (vals : List (Option String)) : Bool :=
  vals.all presentNonEmpty

/-- Modelled from the spec: `validator.exists(key)` — whether the option was
supplied at all ("if `repo_id` is supplied, use it directly"). -/
def validatorExists (v : Option String) : Bool :=
  v.isSome

/-- `List.check_options` (lines 51-53): unless `repo_id` exists, require the
`(repo, org, product)` triple; when it exists, no requirement is imposed. -/
def ListAction.check_options (o : ListOpts) : Bool :=
  if validatorExists o.repo_id then true
  else validatorRequire [o.repo, o.org, o.product]

/-- `Info.check_options` (lines 91-92): require both `repo_id` and `id`. -/
def InfoAction.check_options (o : InfoOpts) : Bool :=
  validatorRequire [o.repo_id, o.id]

/-- The printer columns `List.run` configures, in order (lines 62-64):
`id`, `description`, and `files` (multiline, verbose-only). -/
def listCols : List Event :=
  [Event.addColumn "id" false false,
   Event.addColumn "description" false false,
   Event.addColumn "files" true true]

/-- The printer columns `Info.run` configures, in order (lines 100-105):
`id`, `description`, `family`, `variant`, `version`, and `files`
(multiline, verbose-only). -/
def infoCols : List Event :=
  [Event.addColumn "id" false false,
   Event.addColumn "description" false false,
   Event.addColumn "family" false false,
   Event.addColumn "variant" false false,
   Event.addColumn "version" false false,
   Event.addColumn "files" true true]

/-- The tail of `List.run` once the repository ID is determined: set the
header (line 70), call `distributions_by_repo` (line 72), print the items
(line 74) and return `os.EX_OK` (line 75); an API exception propagates and
the items are never printed. -/
def ListAction.finish (pre : List Event) (repoId : String) (c : ListCollab) :
    RunResult Nat :=
  let pre2 := pre ++ [Event.setHeader ("Distribution List For Repo " ++ repoId)]
  match c.distributions_by_repo repoId with
  | Except.error e => ⟨pre2 ++ [Event.distributionsByRepoCall repoId], Except.error e⟩
  | Except.ok _distributions =>
      ⟨pre2 ++ [Event.distributionsByRepoCall repoId, Event.printItems],
       Except.ok EX_OK⟩

/-- `List.run` (lines 55-75): read the options, add the three columns
(lines 62-64), and when `repo_id` is falsy call
`get_repo(orgName, prodName, repoName, envName)` and take the returned
record's `id` (lines 66-68); then header, API call, print, success.  A
raising collaborator call ends the run with that error. -/
def ListAction.run (o : ListOpts) (c : ListCollab) : RunResult Nat :=
  let repoId := o.repo_id
  if falsyOpt repoId then
    match c.get_repo o.org o.product o.repo o.environment with
    | Except.error e =>
        ⟨listCols ++ [Event.getRepoCall o.org o.product o.repo o.environment],
         Except.error e⟩
    | Except.ok repo =>
        ListAction.finish
          (listCols ++ [Event.getRepoCall o.org o.product o.repo o.environment])
          repo.id c
  else
    ListAction.finish listCols (repoId.getD "") c

/-- The repository ID `List.run` ends up using: the `repo_id` option itself
when truthy, otherwise the `id` field of the record `get_repo` returns. -/
def ListAction.resolvedRepoId (o : ListOpts) (c : ListCollab) :
    Except ApiErr String :=
  if falsyOpt o.repo_id then
    match c.get_repo o.org o.product o.repo o.environment with
    | Except.error e => Except.error e
    | Except.ok repo => Except.ok repo.id
  else Except.ok (o.repo_id.getD "")

/-- `Info.run` (lines 94-110): read the options, call
`distribution(repoId, dist_id)` (line 98) before any printer configuration,
then the six columns (lines 100-105), the header (line 107), print the single
record (line 109) and return `os.EX_OK` (line 110). -/
def InfoAction.run (o : InfoOpts) (c : InfoCollab) : RunResult Nat :=
  match c.distribution o.repo_id o.id with
  | Except.error e => ⟨[Event.distributionCall o.repo_id o.id], Except.error e⟩
  | Except.ok _data =>
      ⟨Event.distributionCall o.repo_id o.id ::
        (infoCols ++ [Event.setHeader "Distribution Information", Event.printItem]),
       Except.ok EX_OK⟩

/-- The result of a whole invocation: the exit status `run` returned, a
validation failure (reported, non-success exit, `run` never entered), or a
collaborator exception that propagated out of `run`. -/
inductive Outcome where
  | success (code : Nat)
  | validationFailure
  | raised (e : ApiErr)
deriving DecidableEq, Repr

/-- Modelled from the spec: the framework's per-invocation pipeline
(`BaseAction.main`, outside this excerpt) for the `List` action — parse
(applying declared defaults), then `check_options`; on failure report the
validation error and exit non-success with no API call attempted; on success
execute `run`. -/
def ListAction.main (o : ListOpts) (c : ListCollab) : List Event × Outcome :=
  let parsed := parseListOptions o
  if ListAction.check_options parsed then
    let r := ListAction.run parsed c
    (r.trace,
      match r.result with
      | Except.ok code => Outcome.success code
      | Except.error e => Outcome.raised e)
  else ([], Outcome.validationFailure)

/-- Modelled from the spec: the framework's per-invocation pipeline for the
`Info` action (its parser declares no defaults). -/
def InfoAction.main (o : InfoOpts) (c : InfoCollab) : List Event × Outcome :=
  if InfoAction.check_options o then
    let r := InfoAction.run o c
    (r.trace,
      match r.result with
      | Except.ok code => Outcome.success code
      | Except.error e => Outcome.raised e)
  else ([], Outcome.validationFailure)

/-- A repo record used by concrete test invocations. -/
def okRepo : RepoRecord := ⟨"resolved-id"⟩

/-- Collaborators whose calls all succeed, for concrete test invocations. -/
def okListCollab : ListCollab :=
  ⟨fun _ _ _ _ => Except.ok okRepo, fun _ => Except.ok []⟩

/-- Collaborators whose calls all raise, for concrete test invocations. -/
def errListCollab : ListCollab :=
  ⟨fun _ _ _ _ => Except.error ApiErr.notFound,
   fun _ => Except.error ApiErr.notFound⟩

/-- An `Info` collaborator whose call succeeds. -/
def okInfoCollab : InfoCollab := ⟨fun _ _ => Except.ok []⟩

/-- An `Info` collaborator whose call raises. -/
def errInfoCollab : InfoCollab := ⟨fun _ _ => Except.error ApiErr.notFound⟩

/-- A `List` invocation supplying only `repo_id = "42"`. -/
def listOpts42 : ListOpts :=
  { repo_id := some "42", repo := none, org := none,
    environment := none, product := none }

/-- A `List` invocation supplying `repo_id` as the empty string. -/
def listOptsEmptyId : ListOpts :=
  { repo_id := some "", repo := some "fedora", org := some "ACME",
    environment := some "Library", product := some "OS" }

/-- A `List` invocation with the name triple and no `repo_id` and no
`--environment` flag. -/
def listOptsTriple : ListOpts :=
  { repo_id := none, repo := some "fedora", org := some "ACME",
    environment := none, product := some "OS" }

/-- An `Info` invocation supplying both options. -/
def infoOptsFull : InfoOpts := { repo_id := some "7", id := some "ks1" }

/-- An `Info` invocation missing `--id`. -/
def infoOptsNoId : InfoOpts := { repo_id := some "7", id := none }

/-- A `List` invocation with no flag supplied at all. -/
def listOptsNone : ListOpts :=
  { repo_id := none, repo := none, org := none,
    environment := none, product := none }

/-- Case lemma: with a truthy `repo_id` the run goes straight to the tail. -/
theorem ListAction.run_truthy (o : ListOpts) (c : ListCollab)
    (hf : falsyOpt o.repo_id = false) :
    ListAction.run o c = ListAction.finish listCols (o.repo_id.getD "") c := by
  unfold ListAction.run
  simp [hf]

/-- Case lemma: with a falsy `repo_id` and a raising `get_repo`, the run ends
with that error right after the resolution call. -/
theorem ListAction.run_falsy_err (o : ListOpts) (c : ListCollab) (e : ApiErr)
    (hf : falsyOpt o.repo_id = true)
    (hg : c.get_repo o.org o.product o.repo o.environment = Except.error e) :
    ListAction.run o c =
      ⟨listCols ++ [Event.getRepoCall o.org o.product o.repo o.environment],
       Except.error e⟩ := by
  unfold ListAction.run
  simp [hf, hg]

/-- Case lemma: with a falsy `repo_id` and a successful `get_repo`, the run
continues with the returned record's `id`. -/
theorem ListAction.run_falsy_ok (o : ListOpts) (c : ListCollab)
    (repo : RepoRecord) (hf : falsyOpt o.repo_id = true)
    (hg : c.get_repo o.org o.product o.repo o.environment = Except.ok repo) :
    ListAction.run o c =
      ListAction.finish
        (listCols ++ [Event.getRepoCall o.org o.product o.repo o.environment])
        repo.id c := by
  unfold ListAction.run
  simp [hf, hg]

/-- Case lemma: the tail of `List.run` when the API call raises. -/
theorem ListAction.finish_err (pre : List Event) (rid : String)
    (c : ListCollab) (e : ApiErr)
    (hd : c.distributions_by_repo rid = Except.error e) :
    ListAction.finish pre rid c =
      ⟨pre ++ [Event.setHeader ("Distribution List For Repo " ++ rid)] ++
        [Event.distributionsByRepoCall rid], Except.error e⟩ := by
  unfold ListAction.finish
  simp [hd]

/-- Case lemma: the tail of `List.run` when the API call succeeds. -/
theorem ListAction.finish_ok (pre : List Event) (rid : String)
    (c : ListCollab) (ds : List DistRecord)
    (hd : c.distributions_by_repo rid = Except.ok ds) :
    ListAction.finish pre rid c =
      ⟨pre ++ [Event.setHeader ("Distribution List For Repo " ++ rid)] ++
        [Event.distributionsByRepoCall rid, Event.printItems],
       Except.ok EX_OK⟩ := by
  unfold ListAction.finish
  simp [hd]

/-- Case lemma: `Info.run` when the API call raises. -/
theorem InfoAction.run_err (o : InfoOpts) (c : InfoCollab) (e : ApiErr)
    (hd : c.distribution o.repo_id o.id = Except.error e) :
    InfoAction.run o c =
      ⟨[Event.distributionCall o.repo_id o.id], Except.error e⟩ := by
  unfold InfoAction.run
  simp [hd]

/-- Case lemma: `Info.run` when the API call succeeds. -/
theorem InfoAction.run_ok (o : InfoOpts) (c : InfoCollab) (d : DistRecord)
    (hd : c.distribution o.repo_id o.id = Except.ok d) :
    InfoAction.run o c =
      ⟨Event.distributionCall o.repo_id o.id ::
        (infoCols ++ [Event.setHeader "Distribution Information",
          Event.printItem]),
       Except.ok EX_OK⟩ := by
  unfold InfoAction.run
  simp [hd]

/-- C1: for every `List` invocation, `check_options` accepts the parsed
options iff the `repo_id` option is present or all three of `repo`, `org`,
`product` are present; a present `repo_id` imposes no requirement on the
triple. -/
theorem list_check_options_iff (o : ListOpts) :
    (ListAction.check_options o = true ↔
      (validatorExists o.repo_id = true ∨
        (presentNonEmpty o.repo = true ∧ presentNonEmpty o.org = true ∧
         presentNonEmpty o.product = true))) ∧
    (validatorExists o.repo_id = true → ListAction.check_options o = true) := by
  unfold ListAction.check_options validatorRequire
  cases h : validatorExists o.repo_id <;>
    simp [h, List.all_cons, List.all_nil, Bool.and_eq_true, and_assoc]

/-- Witness for C1 at the invocation supplying only `repo_id = "42"`. -/
theorem list_check_options_iff_w :
    ListAction.check_options listOpts42 = true :=
  (list_check_options_iff listOpts42).2 rfl

/-- C2: `Info.check_options` passes iff both `repo_id` and `id` are present;
with `id` missing it fails and the invocation performs no `distribution`
API call. -/
theorem info_check_options_requires_both (o : InfoOpts) (c : InfoCollab) :
    (InfoAction.check_options o = true ↔
      (presentNonEmpty o.repo_id = true ∧ presentNonEmpty o.id = true)) ∧
    (o.id = none →
      InfoAction.check_options o = false ∧
      ∀ r d, Event.distributionCall r d ∉ (InfoAction.main o c).1) := by
  constructor
  · unfold InfoAction.check_options validatorRequire
    simp [List.all_cons, List.all_nil, Bool.and_eq_true]
  · intro h
    have hc : InfoAction.check_options o = false := by
      unfold InfoAction.check_options validatorRequire
      simp [h, List.all_cons, presentNonEmpty]
    refine ⟨hc, fun r d => ?_⟩
    unfold InfoAction.main
    simp [hc]

/-- Witness for C2 at the invocation `--repo_id 7` without `--id`. -/
theorem info_check_options_requires_both_w :
    InfoAction.check_options infoOptsNoId = false ∧
    Event.distributionCall (some "7") none ∉
      (InfoAction.main infoOptsNoId errInfoCollab).1 :=
  ⟨((info_check_options_requires_both infoOptsNoId errInfoCollab).2 rfl).1,
   ((info_check_options_requires_both infoOptsNoId errInfoCollab).2 rfl).2
     (some "7") none⟩

/-- C3: for both actions, a failed validation yields an empty effect trace
(zero collaborator calls) and a non-success outcome, and any network event in
an invocation's trace implies validation passed. -/
theorem validation_before_network (o : ListOpts) (oi : InfoOpts)
    (c : ListCollab) (ci : InfoCollab) :
    (ListAction.check_options (parseListOptions o) = false →
      (ListAction.main o c).1 = [] ∧
      (ListAction.main o c).2 = Outcome.validationFailure) ∧
    (InfoAction.check_options oi = false →
      (InfoAction.main oi ci).1 = [] ∧
      (InfoAction.main oi ci).2 = Outcome.validationFailure) ∧
    (∀ e, e ∈ (ListAction.main o c).1 → e.isNetwork = true →
      ListAction.check_options (parseListOptions o) = true) ∧
    (∀ e, e ∈ (InfoAction.main oi ci).1 → e.isNetwork = true →
      InfoAction.check_options oi = true) := by
  refine ⟨?_, ?_, ?_, ?_⟩
  · intro h
    unfold ListAction.main
    simp [h]
  · intro h
    unfold InfoAction.main
    simp [h]
  · intro e he _
    cases hx : ListAction.check_options (parseListOptions o) with
    | false =>
        unfold ListAction.main at he
        simp [hx] at he
    | true => rfl
  · intro e he _
    cases hx : InfoAction.check_options oi with
    | false =>
        unfold InfoAction.main at he
        simp [hx] at he
    | true => rfl

/-- Witness for C3: flagless `list` and `id`-less `info` invocations both
fail validation with an empty trace. -/
theorem validation_before_network_w :
    (ListAction.main listOptsNone errListCollab).1 = [] ∧
    (ListAction.main listOptsNone errListCollab).2 =
      Outcome.validationFailure ∧
    (InfoAction.main infoOptsNoId errInfoCollab).1 = [] := by
  have h := validation_before_network listOptsNone infoOptsNoId
    errListCollab errInfoCollab
  exact ⟨(h.1 (by decide)).1, (h.1 (by decide)).2, (h.2.1 (by decide)).1⟩

/-- C9: whenever either `run` completes without an exception its returned
exit status is `os.EX_OK`, which is `0`. -/
theorem run_success_returns_ex_ok (o : ListOpts) (oi : InfoOpts)
    (c : ListCollab) (ci : InfoCollab) (n m : Nat) :
    ((ListAction.run o c).result = Except.ok n → n = EX_OK) ∧
    ((InfoAction.run oi ci).result = Except.ok m → m = EX_OK) ∧
    EX_OK = 0 := by
  refine ⟨?_, ?_, rfl⟩
  · intro h
    cases hf : falsyOpt o.repo_id with
    | true =>
        cases hg : c.get_repo o.org o.product o.repo o.environment with
        | error e => rw [ListAction.run_falsy_err o c e hf hg] at h; cases h
        | ok repo =>
            rw [ListAction.run_falsy_ok o c repo hf hg] at h
            cases hd : c.distributions_by_repo repo.id with
            | error e => rw [ListAction.finish_err _ _ _ e hd] at h; cases h
            | ok ds =>
                rw [ListAction.finish_ok _ _ _ ds hd] at h
                exact (Except.ok.inj h).symm
    | false =>
        rw [ListAction.run_truthy o c hf] at h
        cases hd : c.distributions_by_repo (o.repo_id.getD "") with
        | error e => rw [ListAction.finish_err _ _ _ e hd] at h; cases h
        | ok ds =>
            rw [ListAction.finish_ok _ _ _ ds hd] at h
            exact (Except.ok.inj h).symm
  · intro h
    cases hd : ci.distribution oi.repo_id oi.id with
    | error e => rw [InfoAction.run_err oi ci e hd] at h; cases h
    | ok d =>
        rw [InfoAction.run_ok oi ci d hd] at h
        exact (Except.ok.inj h).symm

/-- Witness for C9 at concrete successful `list` and `info` invocations. -/
theorem run_success_returns_ex_ok_w : (0 : Nat) = EX_OK ∧ (0 : Nat) = EX_OK :=
  ⟨(run_success_returns_ex_ok listOpts42 infoOptsFull okListCollab
      okInfoCollab 0 0).1 rfl,
   (run_success_returns_ex_ok listOpts42 infoOptsFull okListCollab
      okInfoCollab 0 0).2.1 rfl⟩

/-- C4 counterexample: a `List` invocation whose `repo_id` is supplied as the
empty string — `repo_id` is present (the existence check passes) — yet
`get_repo` receives a call during `run`. -/
theorem list_repo_id_supplied_cex :
    validatorExists listOptsEmptyId.repo_id = true ∧
    Event.getRepoCall (some "ACME") (some "OS") (some "fedora")
        (some "Library") ∈
      (ListAction.run listOptsEmptyId okListCollab).trace := by
  exact ⟨rfl, by decide⟩

/-- C4 (amended): for every `List` invocation whose `repo_id` is supplied
with a non-empty value, `run` uses that value directly as the repository ID
and the resolution collaborator `get_repo` receives zero calls. -/
theorem list_truthy_repo_id_skips_resolution (o : ListOpts) (c : ListCollab)
    (s : String) (h1 : o.repo_id = some s) (h2 : (s == "") = false) :
    (∀ a b d e', Event.getRepoCall a b d e' ∉ (ListAction.run o c).trace) ∧
    ListAction.resolvedRepoId o c = Except.ok s ∧
    Event.distributionsByRepoCall s ∈ (ListAction.run o c).trace := by
  have hf : falsyOpt o.repo_id = false := by simp [falsyOpt, h1, h2]
  have hgd : o.repo_id.getD "" = s := by simp [h1]
  rw [ListAction.run_truthy o c hf, hgd]
  refine ⟨?_, ?_, ?_⟩
  · intro a b d e'
    cases hd : c.distributions_by_repo s with
    | error e =>
        rw [ListAction.finish_err _ _ _ e hd]
        simp [listCols]
    | ok ds =>
        rw [ListAction.finish_ok _ _ _ ds hd]
        simp [listCols]
  · unfold ListAction.resolvedRepoId
    simp [hf, hgd]
  · cases hd : c.distributions_by_repo s with
    | error e =>
        rw [ListAction.finish_err _ _ _ e hd]
        simp
    | ok ds =>
        rw [ListAction.finish_ok _ _ _ ds hd]
        simp

/-- Witness for the amended C4 at the invocation `--repo_id 42`. -/
theorem list_truthy_repo_id_skips_resolution_w :
    Event.getRepoCall none none none none ∉
      (ListAction.run listOpts42 okListCollab).trace ∧
    ListAction.resolvedRepoId listOpts42 okListCollab = Except.ok "42" ∧
    Event.distributionsByRepoCall "42" ∈
      (ListAction.run listOpts42 okListCollab).trace :=
  ⟨(list_truthy_repo_id_skips_resolution listOpts42 okListCollab "42"
      rfl rfl).1 none none none none,
   (list_truthy_repo_id_skips_resolution listOpts42 okListCollab "42"
      rfl rfl).2.1,
   (list_truthy_repo_id_skips_resolution listOpts42 okListCollab "42"
      rfl rfl).2.2⟩

/-- C10: `List.run` calls `get_repo` iff the `repo_id` option value is falsy
(absent or the empty string); hence an empty-string `repo_id` passes the
existence check in `check_options` (no requirement imposed on the triple)
yet still triggers name-based resolution with the possibly-unvalidated
`repo`, `org`, `product`, `environment` values. -/
theorem get_repo_called_iff_falsy (o : ListOpts) (c : ListCollab) :
    ((∃ a b d e', Event.getRepoCall a b d e' ∈ (ListAction.run o c).trace) ↔
      falsyOpt o.repo_id = true) ∧
    (o.repo_id = some "" →
      ListAction.check_options o = true ∧
      Event.getRepoCall o.org o.product o.repo o.environment ∈
        (ListAction.run o c).trace) := by
  have hmem : falsyOpt o.repo_id = true →
      Event.getRepoCall o.org o.product o.repo o.environment ∈
        (ListAction.run o c).trace := by
    intro hf
    cases hg : c.get_repo o.org o.product o.repo o.environment with
    | error e =>
        rw [ListAction.run_falsy_err o c e hf hg]
        simp [listCols]
    | ok repo =>
        rw [ListAction.run_falsy_ok o c repo hf hg]
        cases hd : c.distributions_by_repo repo.id with
        | error e =>
            rw [ListAction.finish_err _ _ _ e hd]
            simp [listCols]
        | ok ds =>
            rw [ListAction.finish_ok _ _ _ ds hd]
            simp [listCols]
  constructor
  · constructor
    · rintro ⟨a, b, d, e', hmem'⟩
      cases hf : falsyOpt o.repo_id with
      | true => rfl
      | false =>
          exfalso
          rw [ListAction.run_truthy o c hf] at hmem'
          cases hd : c.distributions_by_repo (o.repo_id.getD "") with
          | error e =>
              rw [ListAction.finish_err _ _ _ e hd] at hmem'
              simp [listCols] at hmem'
          | ok ds =>
              rw [ListAction.finish_ok _ _ _ ds hd] at hmem'
              simp [listCols] at hmem'
    · intro hf
      exact ⟨o.org, o.product, o.repo, o.environment, hmem hf⟩
  · intro h
    refine ⟨?_, hmem (by simp [falsyOpt, h])⟩
    unfold ListAction.check_options
    simp [validatorExists, h]

/-- Witness for C10 at the empty-string `repo_id` invocation (with a raising
resolver: the call still happens). -/
theorem get_repo_called_iff_falsy_w :
    ListAction.check_options listOptsEmptyId = true ∧
    Event.getRepoCall (some "ACME") (some "OS") (some "fedora")
        (some "Library") ∈
      (ListAction.run listOptsEmptyId errListCollab).trace :=
  (get_repo_called_iff_falsy listOptsEmptyId errListCollab).2 rfl

/-- Case lemma: whenever `repo_id` is falsy, the run calls `get_repo` with
the option values, and on a successful resolution the API call uses the
returned record's `id`. -/
theorem ListAction.run_resolution_trace (o : ListOpts) (c : ListCollab)
    (hf : falsyOpt o.repo_id = true) :
    Event.getRepoCall o.org o.product o.repo o.environment ∈
      (ListAction.run o c).trace ∧
    ∀ repo, c.get_repo o.org o.product o.repo o.environment =
        Except.ok repo →
      Event.distributionsByRepoCall repo.id ∈
        (ListAction.run o c).trace := by
  constructor
  · cases hg : c.get_repo o.org o.product o.repo o.environment with
    | error e =>
        rw [ListAction.run_falsy_err o c e hf hg]
        simp [listCols]
    | ok repo =>
        rw [ListAction.run_falsy_ok o c repo hf hg]
        cases hd : c.distributions_by_repo repo.id with
        | error e =>
            rw [ListAction.finish_err _ _ _ e hd]
            simp [listCols]
        | ok ds =>
            rw [ListAction.finish_ok _ _ _ ds hd]
            simp [listCols]
  · intro repo hg
    rw [ListAction.run_falsy_ok o c repo hf hg]
    cases hd : c.distributions_by_repo repo.id with
    | error e =>
        rw [ListAction.finish_err _ _ _ e hd]
        simp [listCols]
    | ok ds =>
        rw [ListAction.finish_ok _ _ _ ds hd]
        simp [listCols]

/-- C6: a `List` invocation without `repo_id`, with the name triple supplied
and no `--environment` flag, calls `get_repo` with the defaulted environment
`"Library"`, and the repository ID then used for the API call is the `id`
field of the record `get_repo` returns. -/
theorem list_default_environment_resolution (o : ListOpts) (c : ListCollab)
    (h1 : o.repo_id = none) (h2 : o.environment = none)
    (_h3 : o.repo.isSome = true) (_h4 : o.org.isSome = true)
    (_h5 : o.product.isSome = true) :
    Event.getRepoCall o.org o.product o.repo (some "Library") ∈
      (ListAction.run (parseListOptions o) c).trace ∧
    ∀ repo, c.get_repo o.org o.product o.repo (some "Library") =
        Except.ok repo →
      Event.distributionsByRepoCall repo.id ∈
        (ListAction.run (parseListOptions o) c).trace := by
  have hf : falsyOpt (parseListOptions o).repo_id = true := by
    simp [parseListOptions, h1, falsyOpt]
  have henv : (parseListOptions o).environment = some "Library" := by
    simp [parseListOptions, h2]
  have h := ListAction.run_resolution_trace (parseListOptions o) c hf
  rw [henv] at h
  exact h

/-- Witness for C6 at `--repo fedora --org ACME --product OS` with a
resolver returning the record with id `"resolved-id"`. -/
theorem list_default_environment_resolution_w :
    Event.getRepoCall (some "ACME") (some "OS") (some "fedora")
        (some "Library") ∈
      (ListAction.run (parseListOptions listOptsTriple) okListCollab).trace ∧
    Event.distributionsByRepoCall "resolved-id" ∈
      (ListAction.run (parseListOptions listOptsTriple) okListCollab).trace :=
  ⟨(list_default_environment_resolution listOptsTriple okListCollab
      rfl rfl rfl rfl rfl).1,
   (list_default_environment_resolution listOptsTriple okListCollab
      rfl rfl rfl rfl rfl).2 okRepo rfl⟩

/-- A `List` collaborator pair whose resolution succeeds but whose API call
raises, for concrete test invocations. -/
def mixListCollab : ListCollab :=
  ⟨fun _ _ _ _ => Except.ok okRepo,
   fun _ => Except.error (ApiErr.transport "boom")⟩

/-- C8: a raising collaborator call propagates its error out of `run`
unchanged — no catch, no retry, no substituted result — and the printer
never receives records: a raising `get_repo` or `distributions_by_repo`
ends `List.run` with that very error and no `printItems` effect, and a
raising `distribution` ends `Info.run` with that very error and no
`printItem` effect. -/
theorem api_errors_propagate (o : ListOpts) (oi : InfoOpts)
    (c : ListCollab) (ci : InfoCollab) (e : ApiErr) :
    (falsyOpt o.repo_id = true →
      c.get_repo o.org o.product o.repo o.environment = Except.error e →
      (ListAction.run o c).result = Except.error e ∧
      Event.printItems ∉ (ListAction.run o c).trace) ∧
    (∀ rid, ListAction.resolvedRepoId o c = Except.ok rid →
      c.distributions_by_repo rid = Except.error e →
      (ListAction.run o c).result = Except.error e ∧
      Event.printItems ∉ (ListAction.run o c).trace) ∧
    (ci.distribution oi.repo_id oi.id = Except.error e →
      (InfoAction.run oi ci).result = Except.error e ∧
      Event.printItem ∉ (InfoAction.run oi ci).trace) := by
  refine ⟨?_, ?_, ?_⟩
  · intro hf hg
    rw [ListAction.run_falsy_err o c e hf hg]
    refine ⟨rfl, ?_⟩
    simp [listCols]
  · intro rid hr hd
    cases hf : falsyOpt o.repo_id with
    | true =>
        cases hg : c.get_repo o.org o.product o.repo o.environment with
        | error e' =>
            unfold ListAction.resolvedRepoId at hr
            rw [if_pos hf, hg] at hr
            cases hr
        | ok repo =>
            unfold ListAction.resolvedRepoId at hr
            rw [if_pos hf, hg] at hr
            have hrid : repo.id = rid := Except.ok.inj hr
            rw [ListAction.run_falsy_ok o c repo hf hg, hrid,
              ListAction.finish_err _ _ _ e hd]
            refine ⟨rfl, ?_⟩
            simp [listCols]
    | false =>
        unfold ListAction.resolvedRepoId at hr
        rw [if_neg (by simp [hf])] at hr
        have hrid : o.repo_id.getD "" = rid := Except.ok.inj hr
        rw [ListAction.run_truthy o c hf, hrid,
          ListAction.finish_err _ _ _ e hd]
        refine ⟨rfl, ?_⟩
        simp [listCols]
  · intro hd
    rw [InfoAction.run_err oi ci e hd]
    refine ⟨rfl, ?_⟩
    simp

/-- Witness for C8: a raising resolver, a raising list API call after a
successful resolution, and a raising `distribution` call, each at a concrete
invocation. -/
theorem api_errors_propagate_w :
    ((ListAction.run listOptsNone errListCollab).result =
        Except.error ApiErr.notFound ∧
      Event.printItems ∉ (ListAction.run listOptsNone errListCollab).trace) ∧
    ((ListAction.run listOpts42 mixListCollab).result =
        Except.error (ApiErr.transport "boom") ∧
      Event.printItems ∉ (ListAction.run listOpts42 mixListCollab).trace) ∧
    ((InfoAction.run infoOptsFull errInfoCollab).result =
        Except.error ApiErr.notFound ∧
      Event.printItem ∉ (InfoAction.run infoOptsFull errInfoCollab).trace) :=
  ⟨(api_errors_propagate listOptsNone infoOptsFull errListCollab
      errInfoCollab ApiErr.notFound).1 rfl rfl,
   (api_errors_propagate listOpts42 infoOptsFull mixListCollab
      errInfoCollab (ApiErr.transport "boom")).2.1 "42" rfl rfl,
   (api_errors_propagate listOpts42 infoOptsFull mixListCollab
      errInfoCollab ApiErr.notFound).2.2 rfl⟩

/-- C5 counterexample: in the successful `List` invocation `--repo_id 42`
the very first effect of `run` is a printer-column configuration, while the
API call appears later in the trace — so a printer column is added before
the API call returns, refuting the claimed order for `List`. -/
theorem run_order_cex :
    (ListAction.run listOpts42 okListCollab).result = Except.ok EX_OK ∧
    (ListAction.run listOpts42 okListCollab).trace.head? =
      some (Event.addColumn "id" false false) ∧
    Event.distributionsByRepoCall "42" ∈
      (ListAction.run listOpts42 okListCollab).trace :=
  ⟨rfl, rfl, by decide⟩

/-- C5 (amended): on success, `Info.run`'s effects occur in the order API
call, then columns, then header, then the record handed to the printer,
then the success status; `List.run`'s effects occur in the order columns,
then resolution (a `get_repo` call, exactly when `repo_id` is falsy), then
header, then API call, then records handed to the printer, then the success
status.  In both actions records reach the printer only after the API call
returns, and nothing follows the print. -/
theorem run_event_order (o : ListOpts) (oi : InfoOpts)
    (c : ListCollab) (ci : InfoCollab) :
    (∀ n, (ListAction.run o c).result = Except.ok n →
      ∃ rid : String, ∃ res : List Event,
        ((falsyOpt o.repo_id = true ∧
            res = [Event.getRepoCall o.org o.product o.repo o.environment]) ∨
          (falsyOpt o.repo_id = false ∧ res = [])) ∧
        (ListAction.run o c).trace =
          listCols ++ res ++
            [Event.setHeader ("Distribution List For Repo " ++ rid),
             Event.distributionsByRepoCall rid, Event.printItems]) ∧
    (∀ m, (InfoAction.run oi ci).result = Except.ok m →
      (InfoAction.run oi ci).trace =
        Event.distributionCall oi.repo_id oi.id ::
          (infoCols ++ [Event.setHeader "Distribution Information",
            Event.printItem])) := by
  constructor
  · intro n h
    cases hf : falsyOpt o.repo_id with
    | true =>
        cases hg : c.get_repo o.org o.product o.repo o.environment with
        | error e =>
            rw [ListAction.run_falsy_err o c e hf hg] at h
            cases h
        | ok repo =>
            rw [ListAction.run_falsy_ok o c repo hf hg] at h ⊢
            cases hd : c.distributions_by_repo repo.id with
            | error e =>
                rw [ListAction.finish_err _ _ _ e hd] at h
                cases h
            | ok ds =>
                rw [ListAction.finish_ok _ _ _ ds hd]
                refine ⟨repo.id,
                  [Event.getRepoCall o.org o.product o.repo o.environment],
                  Or.inl ⟨rfl, rfl⟩, ?_⟩
                simp [List.append_assoc]
    | false =>
        rw [ListAction.run_truthy o c hf] at h ⊢
        cases hd : c.distributions_by_repo (o.repo_id.getD "") with
        | error e =>
            rw [ListAction.finish_err _ _ _ e hd] at h
            cases h
        | ok ds =>
            rw [ListAction.finish_ok _ _ _ ds hd]
            refine ⟨o.repo_id.getD "", [], Or.inr ⟨rfl, rfl⟩, ?_⟩
            simp [List.append_assoc]
  · intro m h
    cases hd : ci.distribution oi.repo_id oi.id with
    | error e =>
        rw [InfoAction.run_err oi ci e hd] at h
        cases h
    | ok d =>
        rw [InfoAction.run_ok oi ci d hd]

/-- Witness for the amended C5 at the successful invocations
`list --repo_id 42` and `info --repo_id 7 --id ks1`. -/
theorem run_event_order_w :
    (∃ rid : String, ∃ res : List Event,
      ((falsyOpt listOpts42.repo_id = true ∧
          res = [Event.getRepoCall listOpts42.org listOpts42.product
            listOpts42.repo listOpts42.environment]) ∨
        (falsyOpt listOpts42.repo_id = false ∧ res = [])) ∧
      (ListAction.run listOpts42 okListCollab).trace =
        listCols ++ res ++
          [Event.setHeader ("Distribution List For Repo " ++ rid),
           Event.distributionsByRepoCall rid, Event.printItems]) ∧
    (InfoAction.run infoOptsFull okInfoCollab).trace =
      Event.distributionCall infoOptsFull.repo_id infoOptsFull.id ::
        (infoCols ++ [Event.setHeader "Distribution Information",
          Event.printItem]) :=
  ⟨(run_event_order listOpts42 infoOptsFull okListCollab okInfoCollab).1
      EX_OK rfl,
   (run_event_order listOpts42 infoOptsFull okListCollab okInfoCollab).2
      EX_OK rfl⟩

/-- C7: every successful `List` run configures exactly the columns `id`,
`description`, `files` (multiline, verbose-only) in that order and exactly
one header, `"Distribution List For Repo <repoId>"` with the resolved
repository ID substituted; every successful `Info` run configures exactly
the columns `id`, `description`, `family`, `variant`, `version`, `files`
(multiline, verbose-only) in that order and exactly one header,
`"Distribution Information"`. -/
theorem printer_columns_and_headers (o : ListOpts) (oi : InfoOpts)
    (c : ListCollab) (ci : InfoCollab) :
    (∀ n, (ListAction.run o c).result = Except.ok n →
      (ListAction.run o c).trace.filter Event.isColumn =
        [Event.addColumn "id" false false,
         Event.addColumn "description" false false,
         Event.addColumn "files" true true] ∧
      ∃ rid, ListAction.resolvedRepoId o c = Except.ok rid ∧
        (ListAction.run o c).trace.filter Event.isHeader =
          [Event.setHeader ("Distribution List For Repo " ++ rid)]) ∧
    (∀ m, (InfoAction.run oi ci).result = Except.ok m →
      (InfoAction.run oi ci).trace.filter Event.isColumn =
        [Event.addColumn "id" false false,
         Event.addColumn "description" false false,
         Event.addColumn "family" false false,
         Event.addColumn "variant" false false,
         Event.addColumn "version" false false,
         Event.addColumn "files" true true] ∧
      (InfoAction.run oi ci).trace.filter Event.isHeader =
        [Event.setHeader "Distribution Information"]) := by
  constructor
  · intro n h
    cases hf : falsyOpt o.repo_id with
    | true =>
        cases hg : c.get_repo o.org o.product o.repo o.environment with
        | error e =>
            rw [ListAction.run_falsy_err o c e hf hg] at h
            cases h
        | ok repo =>
            rw [ListAction.run_falsy_ok o c repo hf hg] at h ⊢
            cases hd : c.distributions_by_repo repo.id with
            | error e =>
                rw [ListAction.finish_err _ _ _ e hd] at h
                cases h
            | ok ds =>
                rw [ListAction.finish_ok _ _ _ ds hd]
                refine ⟨?_, repo.id, ?_, ?_⟩
                · simp [listCols, List.filter_append, Event.isColumn,
                    Event.isHeader]
                · unfold ListAction.resolvedRepoId
                  rw [if_pos hf, hg]
                · simp [listCols, List.filter_append, Event.isColumn,
                    Event.isHeader]
    | false =>
        rw [ListAction.run_truthy o c hf] at h ⊢
        cases hd : c.distributions_by_repo (o.repo_id.getD "") with
        | error e =>
            rw [ListAction.finish_err _ _ _ e hd] at h
            cases h
        | ok ds =>
            rw [ListAction.finish_ok _ _ _ ds hd]
            refine ⟨?_, o.repo_id.getD "", ?_, ?_⟩
            · simp [listCols, List.filter_append, Event.isColumn,
                Event.isHeader]
            · unfold ListAction.resolvedRepoId
              rw [if_neg (by simp [hf])]
            · simp [listCols, List.filter_append, Event.isColumn,
                Event.isHeader]
  · intro m h
    cases hd : ci.distribution oi.repo_id oi.id with
    | error e =>
        rw [InfoAction.run_err oi ci e hd] at h
        cases h
    | ok d =>
        rw [InfoAction.run_ok oi ci d hd]
        constructor
        · simp [infoCols, List.filter_append, Event.isColumn, Event.isHeader]
        · simp [infoCols, List.filter_append, Event.isColumn, Event.isHeader]

/-- Witness for C7 at the successful invocations `list --repo_id 42` and
`info --repo_id 7 --id ks1`. -/
theorem printer_columns_and_headers_w :
    ((ListAction.run listOpts42 okListCollab).trace.filter Event.isColumn =
        [Event.addColumn "id" false false,
         Event.addColumn "description" false false,
         Event.addColumn "files" true true] ∧
      ∃ rid, ListAction.resolvedRepoId listOpts42 okListCollab =
          Except.ok rid ∧
        (ListAction.run listOpts42 okListCollab).trace.filter
            Event.isHeader =
          [Event.setHeader ("Distribution List For Repo " ++ rid)]) ∧
    (InfoAction.run infoOptsFull okInfoCollab).trace.filter Event.isHeader =
      [Event.setHeader "Distribution Information"] :=
  ⟨(printer_columns_and_headers listOpts42 infoOptsFull okListCollab
      okInfoCollab).1 EX_OK rfl,
   ((printer_columns_and_headers listOpts42 infoOptsFull okListCollab
      okInfoCollab).2 EX_OK rfl).2⟩
